import Mathlib

/-!
Verification of the dual-keyword search service (`upsonicai.py`) against its
specification.  The Python source is shallowly embedded: pydantic models become
structures, the SerpAPI tool becomes a pure function parameterised by the
environment (API key) and by the provider (a function from the outbound request
to the provider response), and the FastAPI handler becomes a function from the
input and the agent behaviour to an `Except` result.  Network effects are made
explicit: `SerpAPITool.search` also returns the list of outbound requests it
performed, so that claims about "no request made" and "no retry" are statable.
-/

namespace UpsonicAI

/-- `class SearchResult(ObjectResponse)`: one normalized search hit
(title, link, snippet). -/
structure SearchResult where
  title : String
  link : String
  snippet : String
  deriving DecidableEq

/-- `class DoubleSearchResponse(ObjectResponse)`: the declared output schema of
each agent task, holding per-keyword result lists. -/
structure DoubleSearchResponse where
  keyword1_results : List SearchResult
  keyword2_results : List SearchResult
  deriving DecidableEq

/-- `class DoubleSearchInput(BaseModel)`: the request body of the endpoint. -/
structure DoubleSearchInput where
  keyword1 : String
  keyword2 : String
  deriving DecidableEq

/-- `fastapi.HTTPException(status_code=..., detail=...)` as raised by the
source; the only error channel the program uses. -/
structure HTTPException where
  status_code : Nat
  detail : String
  deriving DecidableEq

/-- One entry of the JSON `organic` array returned by the provider.  Each of
the three fields may be missing (`result.get(...)` in the source), hence
`Option`. -/
structure OrganicEntry where
  title : Option String
  link : Option String
  snippet : Option String
  deriving DecidableEq

/-- The provider HTTP response as the source consumes it: `status_code`,
the parsed JSON body restricted to its `organic` member (absent when the body
has no such key), and the raw `text` used in the error message. -/
structure ProviderResponse where
  status_code : Nat
  organic : Option (List OrganicEntry)
  text : String
  deriving DecidableEq

/-- The outbound request built by `SerpAPITool.search`: URL, the two headers,
and the single `q` member of the JSON payload `json.dumps({"q": query})`. -/
structure ProviderRequest where
  url : String
  xApiKey : String
  contentType : String
  q : String
  deriving DecidableEq

/-- Python truthiness test `not api_key` on `os.getenv(...)`: true when the
variable is unset (`None`) or set to the empty string. -/
def noApiKey : Option String → Bool
  | none => true
  | some s => s.isEmpty

/-- The error raised at line 50: `HTTPException(status_code=500,
detail="SerpAPI API Key not found!")`.  This is the configuration error of the
spec taxonomy. -/
def configurationError : HTTPException :=
  ⟨500, "SerpAPI API Key not found!"⟩

/-- The error raised at line 73: `HTTPException(status_code=500,
detail=f"SerpAPI Request Failed: {response.text}")`.  This is the provider
error of the spec taxonomy. -/
def providerError (text : String) : HTTPException :=
  ⟨500, "SerpAPI Request Failed: " ++ text⟩

/-- Lines 64-69: map one provider entry to a `SearchResult`, substituting the
documented defaults for missing fields. -/
def toSearchResult (result : OrganicEntry) : SearchResult :=
  { title := result.title.getD "No Title"
    link := result.link.getD "#"
    snippet := result.snippet.getD "No Description" }

/-- Lines 52-57: the request `SerpAPITool.search` sends, given a (present)
API key and the query.  The query string is placed verbatim in the payload. -/
def serperRequest (api_key : String) (query : String) : ProviderRequest :=
  { url := "https://google.serper.dev/search"
    xApiKey := api_key
    contentType := "application/json"
    q := query }

namespace SerpAPITool

/-- Lines 46-73, `SerpAPITool.search`.  `env_api_key` is
`os.getenv("SERPAPI_API_KEY")`; `provider` is the network: it maps the outbound
request to the response `requests.post` yields.  The second component of the
result is the list of outbound requests actually performed (the source performs
exactly one `requests.post`, after the key check). -/
def search (env_api_key : Option String) (provider : ProviderRequest → ProviderResponse)
    (query : String) :
    Except HTTPException (List SearchResult) × List ProviderRequest :=
  if noApiKey env_api_key then
    (.error configurationError, [])
  else
    let req := serperRequest (env_api_key.getD "") query
    let response := provider req
    if response.status_code = 200 then
      let search_results := response.organic.getD []
      (.ok ((search_results.take 10).map toSearchResult), [req])
    else
      (.error (providerError response.text), [req])

end SerpAPITool

/-- `Task(description=..., tools=[SerpAPITool], response_format=DoubleSearchResponse)`:
both tasks bind the same tool list and response format, so only the description
varies; the mutable `response` slot is represented by the agent function
result. -/
structure Task where
  description : String
  deriving DecidableEq

/-- Lines 88-99: the task built for one keyword (both tasks use the same
description template). -/
def mkSearchTask (keyword : String) : Task :=
  ⟨"Perform a web search for " ++ keyword ++ " and return the top results."⟩

/-- The JSON body of a successful response, lines 111-116. -/
structure FinalResponse where
  keyword1 : String
  keyword1_results : List SearchResult
  keyword2 : String
  keyword2_results : List SearchResult
  deriving DecidableEq

/-- The error raised at line 109: `HTTPException(status_code=500,
detail="Failed to fetch search results.")`.  This is the aggregation error of
the spec taxonomy. -/
def aggregationError : HTTPException :=
  ⟨500, "Failed to fetch search results."⟩

/-- Lines 84-116, `perform_double_search`.  `agent` models
`client.agent(search_agent, task)` followed by reading `task.response`: it maps
a task to the response slot the run leaves behind, `none` when the task failed
or left no response.  A pydantic model object defines neither `__bool__` nor
`__len__`, so `not search_data1` at line 108 is exactly an is-None test. -/
def perform_double_search (agent : Task → Option DoubleSearchResponse)
    (input_data : DoubleSearchInput) : Except HTTPException FinalResponse :=
  let search_task1 := mkSearchTask input_data.keyword1
  let search_task2 := mkSearchTask input_data.keyword2
  let search_data1 := agent search_task1
  let search_data2 := agent search_task2
  match search_data1, search_data2 with
  | some data1, some data2 =>
      .ok { keyword1 := input_data.keyword1
            keyword1_results := data1.keyword1_results
            keyword2 := input_data.keyword2
            keyword2_results := data2.keyword2_results }
  | _, _ => .error aggregationError

/-- The process-wide state the module sets up at import time (lines 14-23):
the client configuration entries.  The request handler reads but never writes
it. -/
structure ClientState where
  serpApiKey : Option String
  awsAccessKeyId : Option String
  awsSecretAccessKey : Option String
  awsRegion : Option String
  azureEndpoint : Option String
  azureApiVersion : Option String
  azureApiKey : Option String
  deriving DecidableEq

/-- One full request through the handler, with the process-wide state threaded
explicitly.  The handler body (lines 84-116) contains no assignment to the
module-level state, so the state is returned unchanged. -/
def handleRequest (st : ClientState)
    (agent : ClientState → Task → Option DoubleSearchResponse)
    (input_data : DoubleSearchInput) :
    (Except HTTPException FinalResponse) × ClientState :=
  (perform_double_search (agent st) input_data, st)

/-- A minimal JSON value type for the serializer model. -/
inductive Json where
  | str (s : String)
  | arr (elems : List Json)
  | obj (fields : List (String × Json))

/-- Look a key up in a field list; unknown extra fields are simply never
consulted. -/
def findField : List (String × Json) → String → Option Json
  | [], _ => none
  | (k, v) :: rest, key => if k = key then some v else findField rest key

/-- Look a key up in a JSON object. -/
def Json.getField : Json → String → Option Json
  | .obj fields, key => findField fields key
  | _, _ => none

def Json.asStr : Json → Option String
  | .str s => some s
  | _ => none

def Json.asArr : Json → Option (List Json)
  | .arr elems => some elems
  | _ => none

/-- Modelled from the spec: the serialized form of a `SearchResult` under
ResultSchema (the pydantic dump of the `SearchResult` model, which is not part
of the repository source). -/
def encodeSearchResult (h : SearchResult) : Json :=
  .obj [("title", .str h.title), ("link", .str h.link), ("snippet", .str h.snippet)]

/-- Modelled from the spec: structural validation of one search hit; required
fields must be present with string values, unknown fields are ignored. -/
def decodeSearchResult (j : Json) : Option SearchResult := do
  let title ← (← j.getField "title").asStr
  let link ← (← j.getField "link").asStr
  let snippet ← (← j.getField "snippet").asStr
  pure { title := title, link := link, snippet := snippet }

/-- Modelled from the spec: the serialized form of a `DoubleSearchResponse`
under ResultSchema. -/
def encodeDoubleSearchResponse (d : DoubleSearchResponse) : Json :=
  .obj [("keyword1_results", .arr (d.keyword1_results.map encodeSearchResult)),
        ("keyword2_results", .arr (d.keyword2_results.map encodeSearchResult))]

/-- Modelled from the spec: element-wise validation of a hit list; any
invalid element fails the whole list. -/
def decodeHits : List Json → Option (List SearchResult)
  | [] => some []
  | j :: rest => do
    let h ← decodeSearchResult j
    let t ← decodeHits rest
    pure (h :: t)

/-- Modelled from the spec: structural validation of a `DoubleSearchResponse`;
both result lists must be present and each element must validate as a search
hit. -/
def decodeDoubleSearchResponse (j : Json) : Option DoubleSearchResponse := do
  let ks1 ← (← j.getField "keyword1_results").asArr
  let ks2 ← (← j.getField "keyword2_results").asArr
  let keyword1_results ← decodeHits ks1
  let keyword2_results ← decodeHits ks2
  pure { keyword1_results := keyword1_results, keyword2_results := keyword2_results }

/-- Claim C5: when the provider API key is absent from the process-wide
configuration, `SerpAPITool.search` fails immediately with the configuration
error, performs no outbound provider request (empty request log, result
independent of the provider), and is not retried. -/
theorem search_missing_key_fails_fast
    (env_api_key : Option String) (provider : ProviderRequest → ProviderResponse)
    (query : String) (h : env_api_key = none) :
    SerpAPITool.search env_api_key provider query = (.error configurationError, []) := by
  subst h
  simp [SerpAPITool.search, noApiKey]

/-- Witness for C5 at a concrete provider and query. -/
theorem search_missing_key_fails_fast_witness :
    SerpAPITool.search none (fun _ => ⟨200, some [], "irrelevant"⟩) "rust" =
      (.error configurationError, []) :=
  search_missing_key_fails_fast none (fun _ => ⟨200, some [], "irrelevant"⟩) "rust" rfl

/-- Claim C4: on a provider response whose HTTP status is not 200,
`SerpAPITool.search` fails with the provider error carrying the raw provider
text, produces no `SearchResult`, and performs exactly one outbound request
(no retry). -/
theorem search_non_ok_provider_error
    (k query : String) (provider : ProviderRequest → ProviderResponse)
    (hk : k.isEmpty = false)
    (hs : (provider (serperRequest k query)).status_code ≠ 200) :
    SerpAPITool.search (some k) provider query =
      (.error (providerError (provider (serperRequest k query)).text),
       [serperRequest k query]) := by
  simp [SerpAPITool.search, noApiKey, hk, hs]

/-- Witness for C4 at a concrete 500 provider response. -/
theorem search_non_ok_provider_error_witness :
    SerpAPITool.search (some "key") (fun _ => ⟨500, none, "boom"⟩) "rust" =
      (.error (providerError "boom"), [serperRequest "key" "rust"]) :=
  search_non_ok_provider_error "key" "rust" (fun _ => ⟨500, none, "boom"⟩) rfl
    (by simp)

/-- Claim C10: on a status-200 provider response whose body has no `organic`
member, or an empty one, `SerpAPITool.search` returns the empty list without
raising any error. -/
theorem search_ok_empty_organic
    (k query : String) (provider : ProviderRequest → ProviderResponse)
    (hk : k.isEmpty = false)
    (hs : (provider (serperRequest k query)).status_code = 200)
    (ho : (provider (serperRequest k query)).organic = none ∨
          (provider (serperRequest k query)).organic = some []) :
    (SerpAPITool.search (some k) provider query).1 = .ok [] := by
  rcases ho with ho | ho <;> simp [SerpAPITool.search, noApiKey, hk, hs, ho]

/-- Witness for C10 at a concrete body without an organic member. -/
theorem search_ok_empty_organic_witness :
    (SerpAPITool.search (some "key") (fun _ => ⟨200, none, ""⟩) "rust").1 = .ok [] :=
  search_ok_empty_organic "key" "rust" (fun _ => ⟨200, none, ""⟩) rfl rfl (Or.inl rfl)

/-- Claim C2: on a status-200 provider response with a non-empty organic
array, `SerpAPITool.search` returns the entry-wise image of the first 10
entries in provider order, whose length is min 10 (length of the array). -/
theorem search_ok_truncated_in_order
    (k query : String) (provider : ProviderRequest → ProviderResponse)
    (entries : List OrganicEntry)
    (hk : k.isEmpty = false)
    (hs : (provider (serperRequest k query)).status_code = 200)
    (ho : (provider (serperRequest k query)).organic = some entries)
    (_hne : entries ≠ []) :
    (SerpAPITool.search (some k) provider query).1 =
        .ok ((entries.take 10).map toSearchResult) ∧
      ((entries.take 10).map toSearchResult).length = min 10 entries.length := by
  constructor
  · simp [SerpAPITool.search, noApiKey, hk, hs, ho]
  · simp [List.length_take]

/-- Witness for C2 with a 3-entry organic array: the output is the image of
all 3 entries and min 10 3 = 3. -/
theorem search_ok_truncated_in_order_witness :
    ((SerpAPITool.search (some "key")
        (fun _ => ⟨200, some [⟨some "a", none, none⟩, ⟨none, some "b", none⟩,
                             ⟨none, none, some "c"⟩], ""⟩) "rust").1 =
      .ok [⟨"a", "#", "No Description"⟩, ⟨"No Title", "b", "No Description"⟩,
           ⟨"No Title", "#", "c"⟩]) ∧ (3 = min 10 3) := by
  have h := search_ok_truncated_in_order "key" "rust"
    (fun _ => ⟨200, some [⟨some "a", none, none⟩, ⟨none, some "b", none⟩,
                          ⟨none, none, some "c"⟩], ""⟩)
    [⟨some "a", none, none⟩, ⟨none, some "b", none⟩, ⟨none, none, some "c"⟩]
    rfl rfl rfl (by simp)
  exact ⟨h.1, by simp⟩

/-- Claim C3: the entry-to-hit mapping used by `SerpAPITool.search` substitutes
the documented default for each missing field ("No Title", "#",
"No Description") and passes present fields through unchanged. -/
theorem toSearchResult_field_defaults (e : OrganicEntry) :
    ((e.title = none → (toSearchResult e).title = "No Title") ∧
      ∀ t, e.title = some t → (toSearchResult e).title = t) ∧
    ((e.link = none → (toSearchResult e).link = "#") ∧
      ∀ l, e.link = some l → (toSearchResult e).link = l) ∧
    ((e.snippet = none → (toSearchResult e).snippet = "No Description") ∧
      ∀ s, e.snippet = some s → (toSearchResult e).snippet = s) := by
  obtain ⟨t, l, s⟩ := e
  cases t <;> cases l <;> cases s <;> simp [toSearchResult]

/-- Witness for C3 at the spec Scenario C entry: only the title present. -/
theorem toSearchResult_field_defaults_witness :
    (toSearchResult ⟨some "X", none, none⟩).title = "X" ∧
    (toSearchResult ⟨some "X", none, none⟩).link = "#" ∧
    (toSearchResult ⟨some "X", none, none⟩).snippet = "No Description" :=
  ⟨(toSearchResult_field_defaults ⟨some "X", none, none⟩).1.2 "X" rfl,
   (toSearchResult_field_defaults ⟨some "X", none, none⟩).2.1.1 rfl,
   (toSearchResult_field_defaults ⟨some "X", none, none⟩).2.2.1 rfl⟩

/-- Claim C7: with a key configured, `SerpAPITool.search` performs exactly one
outbound request, a POST to the provider endpoint whose payload q member is
the query string verbatim and whose API-key header is the configured key. -/
theorem search_sends_query_verbatim
    (k query : String) (provider : ProviderRequest → ProviderResponse)
    (hk : k.isEmpty = false) :
    (SerpAPITool.search (some k) provider query).2 = [serperRequest k query] ∧
    (serperRequest k query).q = query ∧
    (serperRequest k query).xApiKey = k ∧
    (serperRequest k query).url = "https://google.serper.dev/search" := by
  refine ⟨?_, rfl, rfl, rfl⟩
  simp only [SerpAPITool.search, noApiKey, hk, Bool.false_eq_true, if_false,
    Option.getD_some]
  split <;> rfl

/-- Witness for C7 at a concrete key, query and provider. -/
theorem search_sends_query_verbatim_witness :
    ((SerpAPITool.search (some "key") (fun _ => ⟨200, none, ""⟩) "rust lang").2 =
      [serperRequest "key" "rust lang"]) ∧
    ((serperRequest "key" "rust lang").q = "rust lang") :=
  ⟨(search_sends_query_verbatim "key" "rust lang" (fun _ => ⟨200, none, ""⟩) rfl).1,
   (search_sends_query_verbatim "key" "rust lang" (fun _ => ⟨200, none, ""⟩) rfl).2.1⟩

/-- Claim C1: if either task run leaves no response (the task failed or its
response slot stayed empty), `perform_double_search` fails the whole request
with the aggregation error, so the other possibly successful result is not
returned to the caller. -/
theorem double_search_fails_whole_request
    (agent : Task → Option DoubleSearchResponse) (input_data : DoubleSearchInput)
    (h : agent (mkSearchTask input_data.keyword1) = none ∨
         agent (mkSearchTask input_data.keyword2) = none) :
    perform_double_search agent input_data = .error aggregationError := by
  rcases h with h | h
  · simp [perform_double_search, h]
  · cases h1 : agent (mkSearchTask input_data.keyword1) <;>
      simp [perform_double_search, h1, h]

/-- Witness for C1: the first task fails while the second succeeds with a
non-empty result; the request still fails whole. -/
theorem double_search_fails_whole_request_witness :
    perform_double_search
      (fun t => if t.description = (mkSearchTask "golang").description
        then some ⟨[⟨"t", "l", "s"⟩], [⟨"t", "l", "s"⟩]⟩ else none)
      ⟨"rust", "golang"⟩ = .error aggregationError :=
  double_search_fails_whole_request _ ⟨"rust", "golang"⟩ (Or.inl (by simp [mkSearchTask]))

/-- Claim C6: when both tasks complete, the final response is built from
exactly the keyword1_results field of task1 and the keyword2_results field of
task2 (the two opposite fields do not occur in it), paired with the original
keyword strings unchanged. -/
theorem double_search_merges_matching_slots
    (agent : Task → Option DoubleSearchResponse) (input_data : DoubleSearchInput)
    (data1 data2 : DoubleSearchResponse)
    (h1 : agent (mkSearchTask input_data.keyword1) = some data1)
    (h2 : agent (mkSearchTask input_data.keyword2) = some data2) :
    perform_double_search agent input_data =
      .ok { keyword1 := input_data.keyword1
            keyword1_results := data1.keyword1_results
            keyword2 := input_data.keyword2
            keyword2_results := data2.keyword2_results } := by
  simp [perform_double_search, h1, h2]

/-- Witness for C6: both slots filled with distinct lists; the response picks
the first list of task1 and the second list of task2. -/
theorem double_search_merges_matching_slots_witness :
    perform_double_search
      (fun _ => some ⟨[⟨"a1", "b1", "c1"⟩], [⟨"a2", "b2", "c2"⟩]⟩)
      ⟨"rust", "golang"⟩ =
      .ok ⟨"rust", [⟨"a1", "b1", "c1"⟩], "golang", [⟨"a2", "b2", "c2"⟩]⟩ :=
  double_search_merges_matching_slots _ ⟨"rust", "golang"⟩
    ⟨[⟨"a1", "b1", "c1"⟩], [⟨"a2", "b2", "c2"⟩]⟩
    ⟨[⟨"a1", "b1", "c1"⟩], [⟨"a2", "b2", "c2"⟩]⟩ rfl rfl

/-- Claim C9: a request leaves the process-wide configuration state unchanged,
and repeating the same request against the unchanged state and the same agent
behaviour (hence unchanged provider responses) yields an identical result. -/
theorem handleRequest_idempotent
    (st : ClientState) (agent : ClientState → Task → Option DoubleSearchResponse)
    (input_data : DoubleSearchInput) :
    (handleRequest st agent input_data).2 = st ∧
    (handleRequest (handleRequest st agent input_data).2 agent input_data).1 =
      (handleRequest st agent input_data).1 :=
  ⟨rfl, rfl⟩

/-- Round trip of a single hit through the modelled serializer. -/
theorem decode_encode_searchResult (h : SearchResult) :
    decodeSearchResult (encodeSearchResult h) = some h := by
  simp [decodeSearchResult, encodeSearchResult, Json.getField, Json.asStr, findField]

/-- Round trip of a hit list through the modelled serializer. -/
theorem decodeHits_encode (hits : List SearchResult) :
    decodeHits (hits.map encodeSearchResult) = some hits := by
  induction hits with
  | nil => rfl
  | cons h t ih => simp [decodeHits, decode_encode_searchResult, ih]

/-- Claim C8: a `DoubleSearchResponse` built from two non-empty result lists,
serialized and deserialized through the modelled ResultSchema, comes back
field-for-field identical. -/
theorem resultSchema_round_trip (d : DoubleSearchResponse)
    (_h1 : d.keyword1_results ≠ []) (_h2 : d.keyword2_results ≠ []) :
    decodeDoubleSearchResponse (encodeDoubleSearchResponse d) = some d := by
  simp [decodeDoubleSearchResponse, encodeDoubleSearchResponse, Json.getField,
    Json.asArr, findField, decodeHits_encode]

/-- Witness for C8 at a concrete response with one hit per keyword. -/
theorem resultSchema_round_trip_witness :
    decodeDoubleSearchResponse
        (encodeDoubleSearchResponse ⟨[⟨"a", "b", "c"⟩], [⟨"d", "e", "f"⟩]⟩) =
      some ⟨[⟨"a", "b", "c"⟩], [⟨"d", "e", "f"⟩]⟩ :=
  resultSchema_round_trip ⟨[⟨"a", "b", "c"⟩], [⟨"d", "e", "f"⟩]⟩
    (by simp) (by simp)

end UpsonicAI
